import Mathlib

/-!
Verification of the error-translation and exception-signaling boundary layer
of the Tornado OpenCL JNI driver (`drivers/opencl-jni/src/main/cpp/source/utils.h`).

The repository source provides the interface header `utils.h`; the bodies of
`getOpenCLError`, `«throwError»`, `throwNoClassDefFoundError` and
`throwNoSuchMethodError` are declared there and implemented outside the
available sources, so their behaviour is modelled from the specification
(each such definition carries a doc comment starting `Modelled from the spec:`).
Strings are Lean `String`s; JNI `jint` status results are Lean `Int`;
OpenCL status codes (`cl_int`) are Lean `Int`.
-/

namespace TornadoUtils

/-- Substring containment: `containsStr s sub` holds when `sub` occurs
verbatim and contiguously inside `s`. -/
def containsStr (s sub : String) : Prop :=
  ∃ pre post : String, s = pre ++ sub ++ post

/- ------------------------------------------------------------------ -/
/- Error Code Translator                                               -/
/- ------------------------------------------------------------------ -/

/-- Modelled from the spec: the fixed, externally-defined enumeration of
native-API (OpenCL 1.2) status codes with their human-readable diagnostic
messages. The body of `getOpenCLError` is not among the available sources;
the spec describes it as a lookup table from known codes to messages.
Exactly one value (0, `CL_SUCCESS`) means success; all others denote a
specific failure category. -/
def knownErrors : List (Int × String) :=
  [ (0, "success"),
    (-1, "device not found"),
    (-2, "device not available"),
    (-3, "compiler not available"),
    (-4, "mem object allocation failure"),
    (-5, "out of resources"),
    (-6, "out of host memory"),
    (-7, "profiling info not available"),
    (-8, "mem copy overlap"),
    (-9, "image format mismatch"),
    (-10, "image format not supported"),
    (-11, "build program failure"),
    (-12, "map failure"),
    (-13, "misaligned sub buffer offset"),
    (-14, "exec status error for events in wait list"),
    (-15, "compile program failure"),
    (-16, "linker not available"),
    (-17, "link program failure"),
    (-18, "device partition failed"),
    (-19, "kernel arg info not available"),
    (-30, "invalid value"),
    (-31, "invalid device type"),
    (-32, "invalid platform"),
    (-33, "invalid device"),
    (-34, "invalid context"),
    (-35, "invalid queue properties"),
    (-36, "invalid command queue"),
    (-37, "invalid host ptr"),
    (-38, "invalid mem object"),
    (-39, "invalid image format descriptor"),
    (-40, "invalid image size"),
    (-41, "invalid sampler"),
    (-42, "invalid binary"),
    (-43, "invalid build options"),
    (-44, "invalid program"),
    (-45, "invalid program executable"),
    (-46, "invalid kernel name"),
    (-47, "invalid kernel definition"),
    (-48, "invalid kernel"),
    (-49, "invalid arg index"),
    (-50, "invalid arg value"),
    (-51, "invalid arg size"),
    (-52, "invalid kernel args"),
    (-53, "invalid work dimension"),
    (-54, "invalid work group size"),
    (-55, "invalid work item size"),
    (-56, "invalid global offset"),
    (-57, "invalid event wait list"),
    (-58, "invalid event"),
    (-59, "invalid operation"),
    (-60, "invalid gl object"),
    (-61, "invalid buffer size"),
    (-62, "invalid mip level"),
    (-63, "invalid global work size"),
    (-64, "invalid property"),
    (-65, "invalid image descriptor"),
    (-66, "invalid compile options"),
    (-67, "invalid linker options"),
    (-68, "invalid device partition count") ]

/-- The designated success value of the native API (`CL_SUCCESS`). -/
def successCode : Int := 0

/-- Modelled from the spec: the fallback diagnostic message for a status
code not present in the known enumeration, containing the numeric value
of the code. -/
def fallbackMessage (code : Int) : String :=
  "unrecognized error code: " ++ toString code

/-- Modelled from the spec: `getOpenCLError` (declared in `utils.h`, body
outside the available sources) maps a StatusCode to a DiagnosticMessage.
It is a lookup over the known enumeration, matching by exact integer
equality only, with a single default arm producing the fallback message;
the caller-provided output buffer of the C signature is modelled by
returning the message string. -/
def getOpenCLError (code : Int) : String :=
  match List.lookup code knownErrors with
  | some m => m
  | none => fallbackMessage code

/-- A successful `List.lookup` over an `Int`-keyed association list comes
from an entry of the list whose key is the looked-up key. -/
theorem lookup_mem {l : List (Int × String)} {a : Int} {b : String}
    (h : List.lookup a l = some b) : (a, b) ∈ l := by
  induction l with
  | nil => simp [List.lookup] at h
  | cons p t ih =>
    rw [List.lookup] at h
    cases hab : a == p.1 with
    | true =>
      simp only [hab, Option.some.injEq] at h
      have h1 : a = p.1 := eq_of_beq hab
      have h3 : p = (a, b) := by
        cases p
        simp only at h1 h
        rw [h1, h]
      rw [h3]
      exact List.mem_cons_self _ _
    | false =>
      simp only [hab] at h
      exact List.mem_cons_of_mem _ (ih h)

/-- Every message in the known enumeration is non-empty. -/
theorem knownErrors_nonempty : ∀ p ∈ knownErrors, p.2 ≠ "" := by decide

/-- No message of the known enumeration equals the fallback message for
its own code. -/
theorem knownErrors_ne_fallback : ∀ p ∈ knownErrors, p.2 ≠ fallbackMessage p.1 := by
  decide

/-- The fallback message is never the empty string. -/
theorem fallbackMessage_ne_empty (code : Int) : fallbackMessage code ≠ "" := by
  intro h
  have hd := congrArg String.data h
  rw [fallbackMessage] at hd
  rw [String.data_append] at hd
  simp at hd

/-- The Translator never returns the empty string, on any integer input. -/
theorem getOpenCLError_ne_empty (code : Int) : getOpenCLError code ≠ "" := by
  rw [getOpenCLError]
  cases hl : List.lookup code knownErrors with
  | none =>
    simp only
    exact fallbackMessage_ne_empty code
  | some m =>
    simp only
    exact knownErrors_nonempty (code, m) (lookup_mem hl)

/-- On a code outside the known enumeration the Translator returns the
fallback message. -/
theorem getOpenCLError_unknown (code : Int)
    (h : List.lookup code knownErrors = none) :
    getOpenCLError code = fallbackMessage code := by
  rw [getOpenCLError, h]

/- ------------------------------------------------------------------ -/
/- Exception Signaler                                                  -/
/- ------------------------------------------------------------------ -/

/-- The three exception categories the boundary layer can raise in the
host environment: generic runtime error, class-not-found, no-such-method. -/
inductive ExnCategory where
  | generic
  | missingClass
  | missingMethod
deriving DecidableEq, Repr

/-- A pending exception of the host environment: its category (the
exception class raised) and its message. -/
structure ExnRecord where
  category : ExnCategory
  message : String
deriving DecidableEq, Repr

/-- The HostEnvironmentHandle (JNIEnv): an execution context of the
managed runtime, holding at most one pending-exception state, plus the
set of exception classes that the environment can resolve (raising fails
when the required class cannot be resolved). -/
structure HostEnv where
  pending : Option ExnRecord
  resolvable : List ExnCategory
deriving DecidableEq, Repr

/-- Whether the host environment can resolve the exception class of the
given category. -/
def findClass (env : HostEnv) (c : ExnCategory) : Bool :=
  env.resolvable.contains c

/-- Modelled from the spec: the shared host-runtime exception-raising
primitive. It looks up the exception class for the requested category;
if the class resolves, it marks the pending exception on the handle with
the given message and returns the success status 0; if the class itself
cannot be resolved, raising fails, nothing is retried, and the
non-success status -1 is returned with the handle unchanged. -/
def raiseAs (env : HostEnv) (c : ExnCategory) (msg : String) : Int × HostEnv :=
  if findClass env c then
    (0, { env with pending := some ⟨c, msg⟩ })
  else
    (-1, env)

/-- Modelled from the spec: `«throwError»` (declared in `utils.h`, body
outside the available sources) raises a generic runtime exception
carrying the given descriptive message, returning a status for the raise
itself. -/
def «throwError» (env : HostEnv) (message : String) : Int × HostEnv :=
  raiseAs env ExnCategory.generic message

/-- Modelled from the spec: `throwNoClassDefFoundError` (declared in
`utils.h`, body outside the available sources) raises a class-not-found
exception naming the missing class, returning a status for the raise
itself. -/
def throwNoClassDefFoundError (env : HostEnv) (className : String) : Int × HostEnv :=
  raiseAs env ExnCategory.missingClass className

/-- Modelled from the spec: `throwNoSuchMethodError` (declared in
`utils.h`, body outside the available sources) raises a no-such-method
exception whose message names the class, the method and the signature
descriptor, returning a status for the raise itself. -/
def throwNoSuchMethodError (env : HostEnv) (className methodName sig : String) :
    Int × HostEnv :=
  raiseAs env ExnCategory.missingMethod (className ++ "." ++ methodName ++ sig)

end TornadoUtils

namespace TornadoUtils

/-- C1: the Error Code Translator is a total function over the integer
StatusCode domain: for every integer input it returns a (non-empty)
message, and for every integer outside the known enumeration the returned
message is the fallback message and contains the numeric value of the
code. -/
theorem c1_translator_total (code : Int) :
    getOpenCLError code ≠ "" ∧
      (List.lookup code knownErrors = none →
        getOpenCLError code = fallbackMessage code ∧
          containsStr (getOpenCLError code) (toString code)) := by
  constructor
  · exact getOpenCLError_ne_empty code
  · intro hnone
    have hres : getOpenCLError code = fallbackMessage code :=
      getOpenCLError_unknown code hnone
    refine ⟨hres, ?_⟩
    rw [hres, fallbackMessage]
    exact ⟨"unrecognized error code: ", "", by rw [String.append_empty]⟩

/-- Witness for C1 at the concrete unknown code 12345. -/
theorem c1_translator_total_witness :
    getOpenCLError 12345 = fallbackMessage 12345 ∧
      containsStr (getOpenCLError 12345) (toString (12345 : Int)) :=
  (c1_translator_total 12345).2 (by decide)

/-- C2: for every StatusCode other than the designated success value the
Translator returns a non-empty DiagnosticMessage, and an unknown code maps
to the generic fallback message rather than failing silently. -/
theorem c2_failure_nonempty (code : Int) (h : code ≠ successCode) :
    getOpenCLError code ≠ "" ∧
      (List.lookup code knownErrors = none →
        getOpenCLError code = fallbackMessage code) :=
  ⟨getOpenCLError_ne_empty code, fun hnone => getOpenCLError_unknown code hnone⟩

/-- Witness for C2 at the concrete failure code -5 (out of resources). -/
theorem c2_failure_nonempty_witness :
    getOpenCLError (-5) ≠ "" :=
  (c2_failure_nonempty (-5) (by decide)).1

/-- C3: for every StatusCode in the known enumeration the Translator
returns, by exact enumeration match, exactly the enumerated message, which
is non-empty and distinct from the fallback message for that code. -/
theorem c3_known_distinct (code : Int) (m : String)
    (h : List.lookup code knownErrors = some m) :
    getOpenCLError code = m ∧ m ≠ "" ∧ m ≠ fallbackMessage code := by
  have hmem : (code, m) ∈ knownErrors := lookup_mem h
  refine ⟨?_, ?_, ?_⟩
  · rw [getOpenCLError, h]
  · exact knownErrors_nonempty (code, m) hmem
  · exact knownErrors_ne_fallback (code, m) hmem

/-- Witness for C3 at the concrete known code -5. -/
theorem c3_known_distinct_witness :
    getOpenCLError (-5) = "out of resources" ∧
      "out of resources" ≠ "" ∧
      "out of resources" ≠ fallbackMessage (-5) :=
  c3_known_distinct (-5) "out of resources" (by decide)

/-- Two strings are equal when their character data are equal. -/
theorem str_ext {a b : String} (h : a.data = b.data) : a = b := by
  cases a
  cases b
  simp only at h
  rw [h]

/-- Successful raising sets the pending exception to the requested
category and message. -/
theorem raiseAs_pending (env : HostEnv) (c : ExnCategory) (msg : String)
    (h : findClass env c = true) :
    raiseAs env c msg = (0, { env with pending := some ⟨c, msg⟩ }) := by
  rw [raiseAs, if_pos h]

/-- The raise status is 0 exactly when the exception class resolves, and
a failed raise returns -1 with the handle unchanged. -/
theorem raiseAs_status (env : HostEnv) (c : ExnCategory) (msg : String) :
    ((raiseAs env c msg).1 = 0 ↔ findClass env c = true) ∧
      (findClass env c = false → raiseAs env c msg = (-1, env)) := by
  cases hc : findClass env c with
  | true => simp [raiseAs, hc]
  | false => simp [raiseAs, hc]

/-- C4: raising a generic failure with message M (when the generic
runtime-exception class resolves in the host environment) leaves the
handle's pending exception carrying exactly the message M, with the
generic category — not the class-not-found or no-such-method category. -/
theorem c4_generic_carries_message (env : HostEnv) (M : String)
    (h : findClass env ExnCategory.generic = true) :
    («throwError» env M).2.pending = some ⟨ExnCategory.generic, M⟩ := by
  rw [«throwError», raiseAs_pending env ExnCategory.generic M h]

/-- Witness for C4 on a concrete environment and message. -/
theorem c4_generic_carries_message_witness :
    («throwError» ⟨none, [ExnCategory.generic]⟩ "boom").2.pending =
      some ⟨ExnCategory.generic, "boom"⟩ :=
  c4_generic_carries_message ⟨none, [ExnCategory.generic]⟩ "boom" (by decide)

/-- C5: raising a missing-method exception for class C, method m and
signature descriptor s (when the no-such-method exception class resolves)
produces a pending exception of the no-such-method category whose message
contains all three identifiers verbatim. -/
theorem c5_method_names_all_three (env : HostEnv) (C m s : String)
    (h : findClass env ExnCategory.missingMethod = true) :
    ∃ msg : String,
      (throwNoSuchMethodError env C m s).2.pending =
          some ⟨ExnCategory.missingMethod, msg⟩ ∧
        containsStr msg C ∧ containsStr msg m ∧ containsStr msg s := by
  refine ⟨C ++ "." ++ m ++ s, ?_, ?_, ?_, ?_⟩
  · rw [throwNoSuchMethodError, raiseAs_pending env ExnCategory.missingMethod _ h]
  · exact ⟨"", "." ++ m ++ s, str_ext (by simp [String.data_append])⟩
  · exact ⟨C ++ ".", s, rfl⟩
  · exact ⟨C ++ "." ++ m, "", str_ext (by simp [String.data_append])⟩

/-- Witness for C5 on a concrete environment, class, method and
signature. -/
theorem c5_method_names_all_three_witness :
    ∃ msg : String,
      (throwNoSuchMethodError ⟨none, [ExnCategory.missingMethod]⟩ "C" "m" "(I)V").2.pending =
          some ⟨ExnCategory.missingMethod, msg⟩ ∧
        containsStr msg "C" ∧ containsStr msg "m" ∧ containsStr msg "(I)V" :=
  c5_method_names_all_three ⟨none, [ExnCategory.missingMethod]⟩ "C" "m" "(I)V" (by decide)

/-- C6: raising a missing-class exception for class identifier N (when
the class-not-found exception class resolves) produces a pending
exception of the class-not-found category whose message contains N. -/
theorem c6_class_named (env : HostEnv) (N : String)
    (h : findClass env ExnCategory.missingClass = true) :
    ∃ msg : String,
      (throwNoClassDefFoundError env N).2.pending =
          some ⟨ExnCategory.missingClass, msg⟩ ∧
        containsStr msg N := by
  refine ⟨N, ?_, "", "", str_ext (by simp [String.data_append])⟩
  rw [throwNoClassDefFoundError, raiseAs_pending env ExnCategory.missingClass N h]

/-- Witness for C6 on a concrete environment and class name. -/
theorem c6_class_named_witness :
    ∃ msg : String,
      (throwNoClassDefFoundError ⟨none, [ExnCategory.missingClass]⟩ "com.example.Foo").2.pending =
          some ⟨ExnCategory.missingClass, msg⟩ ∧
        containsStr msg "com.example.Foo" :=
  c6_class_named ⟨none, [ExnCategory.missingClass]⟩ "com.example.Foo" (by decide)

/-- C7: each of the three Exception Signaler variants returns a status
value that is 0 exactly when the raise itself succeeded (the required
exception class resolved); when raising fails there is no retry — the
call returns immediately with the non-success status -1 propagated to
the caller and the handle unchanged. -/
theorem c7_raise_status (env : HostEnv) (M N C m s : String) :
    (((«throwError» env M).1 = 0 ↔ findClass env ExnCategory.generic = true) ∧
      (findClass env ExnCategory.generic = false →
        «throwError» env M = (-1, env))) ∧
    (((throwNoClassDefFoundError env N).1 = 0 ↔
        findClass env ExnCategory.missingClass = true) ∧
      (findClass env ExnCategory.missingClass = false →
        throwNoClassDefFoundError env N = (-1, env))) ∧
    (((throwNoSuchMethodError env C m s).1 = 0 ↔
        findClass env ExnCategory.missingMethod = true) ∧
      (findClass env ExnCategory.missingMethod = false →
        throwNoSuchMethodError env C m s = (-1, env))) := by
  refine ⟨⟨?_, ?_⟩, ⟨?_, ?_⟩, ⟨?_, ?_⟩⟩
  · exact (raiseAs_status env ExnCategory.generic M).1
  · exact (raiseAs_status env ExnCategory.generic M).2
  · exact (raiseAs_status env ExnCategory.missingClass N).1
  · exact (raiseAs_status env ExnCategory.missingClass N).2
  · exact (raiseAs_status env ExnCategory.missingMethod (C ++ "." ++ m ++ s)).1
  · exact (raiseAs_status env ExnCategory.missingMethod (C ++ "." ++ m ++ s)).2

/-- Witness for C7 on a concrete environment resolving no exception
classes: every variant reports failure of the raise itself. -/
theorem c7_raise_status_witness :
    «throwError» ⟨none, []⟩ "a" = (-1, ⟨none, []⟩) ∧
      throwNoClassDefFoundError ⟨none, []⟩ "b" = (-1, ⟨none, []⟩) ∧
      throwNoSuchMethodError ⟨none, []⟩ "c" "d" "e" = (-1, ⟨none, []⟩) :=
  ⟨(c7_raise_status ⟨none, []⟩ "a" "b" "c" "d" "e").1.2 (by decide),
    (c7_raise_status ⟨none, []⟩ "a" "b" "c" "d" "e").2.1.2 (by decide),
    (c7_raise_status ⟨none, []⟩ "a" "b" "c" "d" "e").2.2.2 (by decide)⟩

/-- The execution state of one native entry point invoked from the host
environment. -/
inductive ExecState where
  | Running
  | ExceptionPending
  | Unwound
deriving DecidableEq, Repr

/-- Modelled from the spec: the per-entry-point step relation of a native
call, over the execution state paired with the HostEnvironmentHandle.
Native-resource interaction (`work`) happens only in `Running`; detecting
a failure raises through one of the three Signaler variants, mutating the
handle as that variant does, and moves to `ExceptionPending`; from
`ExceptionPending` the only step is returning to the host environment,
i.e. `Unwound`, which is terminal. -/
inductive EntryStep : ExecState × HostEnv → ExecState × HostEnv → Prop where
  | work (env : HostEnv) :
      EntryStep (ExecState.Running, env) (ExecState.Running, env)
  | raiseGeneric (env env2 : HostEnv) (M : String)
      (h : «throwError» env M = (0, env2)) :
      EntryStep (ExecState.Running, env) (ExecState.ExceptionPending, env2)
  | raiseClass (env env2 : HostEnv) (N : String)
      (h : throwNoClassDefFoundError env N = (0, env2)) :
      EntryStep (ExecState.Running, env) (ExecState.ExceptionPending, env2)
  | raiseMethod (env env2 : HostEnv) (C m s : String)
      (h : throwNoSuchMethodError env C m s = (0, env2)) :
      EntryStep (ExecState.Running, env) (ExecState.ExceptionPending, env2)
  | unwind (env : HostEnv) :
      EntryStep (ExecState.ExceptionPending, env) (ExecState.Unwound, env)

/-- A single step never moves a non-`Running` state back to `Running`. -/
theorem entryStep_not_running {a b : ExecState × HostEnv}
    (hs : EntryStep a b) (ha : a.1 ≠ ExecState.Running) :
    b.1 ≠ ExecState.Running := by
  cases hs with
  | work env => exact absurd rfl ha
  | raiseGeneric env env2 M h => exact absurd rfl ha
  | raiseClass env env2 N h => exact absurd rfl ha
  | raiseMethod env env2 C m s h => exact absurd rfl ha
  | unwind env => exact fun hcon => ExecState.noConfusion hcon

/-- C8: the per-entry-point execution-state machine admits no way back to
`Running` once an exception is pending: every state reachable (in any
number of steps) from `ExceptionPending` — including after a Signaler
variant has mutated the handle's pending-exception state — is not
`Running`, so no subsequent step of the same call interacts with native
resources before the call returns. -/
theorem c8_no_return_to_running (env : HostEnv) (t : ExecState × HostEnv)
    (h : Relation.ReflTransGen EntryStep (ExecState.ExceptionPending, env) t) :
    t.1 ≠ ExecState.Running := by
  induction h with
  | refl => exact fun hcon => ExecState.noConfusion hcon
  | tail hab hbc ih => exact entryStep_not_running hbc ih

/-- Witness for C8 on a concrete one-step execution that unwinds after
the exception became pending. -/
theorem c8_no_return_to_running_witness :
    (ExecState.Unwound, (⟨none, []⟩ : HostEnv)).1 ≠ ExecState.Running :=
  c8_no_return_to_running ⟨none, []⟩ (ExecState.Unwound, ⟨none, []⟩)
    (Relation.ReflTransGen.single (EntryStep.unwind ⟨none, []⟩))

/-- Whether a declaration of the boundary header is an active part of the
callable interface or present only as a disabled (commented-out)
declaration. -/
inductive DeclState where
  | active
  | disabled
deriving DecidableEq, Repr

/-- The interface surface of `utils.h`, transcribed declaration by
declaration from the source file: the Translator and the three Signaler
variants are active declarations, while `throwNoSuchFieldError` and
`throwOutOfMemoryError` appear only inside a block comment. -/
def utilsHeaderDecls : List (String × DeclState) :=
  [ ("getOpenCLError", DeclState.active),
    ("throwError", DeclState.active),
    ("throwNoClassDefFoundError", DeclState.active),
    ("throwNoSuchMethodError", DeclState.active),
    ("throwNoSuchFieldError", DeclState.disabled),
    ("throwOutOfMemoryError", DeclState.disabled) ]

/-- C9: the boundary header exposes exactly the Translator plus the three
Signaler variants as its active callable interface, and the missing-field
and out-of-memory variants are present only as disabled declarations. -/
theorem c9_interface_surface :
    (utilsHeaderDecls.filter (fun p => p.2 == DeclState.active)).map Prod.fst =
        ["getOpenCLError", "throwError", "throwNoClassDefFoundError",
          "throwNoSuchMethodError"] ∧
      List.lookup "throwNoSuchFieldError" utilsHeaderDecls = some DeclState.disabled ∧
      List.lookup "throwOutOfMemoryError" utilsHeaderDecls = some DeclState.disabled := by
  decide

/-- A caller-side store of string buffers, addressed by pointer; the
`const char *` arguments of the Signaler entry points point into it. -/
def Store : Type := Nat → String

/-- Modelled from the spec and the header signature: the C entry point of
the generic Signaler takes its message as a `const char *` into the
caller's store, reads the buffer, raises, and returns the status together
with the updated handle and the caller's store. -/
def throwErrorEntry (env : HostEnv) (store : Store) (msgPtr : Nat) :
    Int × HostEnv × Store :=
  let r := «throwError» env (store msgPtr)
  (r.1, r.2, store)

/-- Modelled from the spec and the header signature: the C entry point of
the missing-class Signaler, reading its class-name buffer from the
caller's store. -/
def throwNoClassDefFoundErrorEntry (env : HostEnv) (store : Store) (namePtr : Nat) :
    Int × HostEnv × Store :=
  let r := throwNoClassDefFoundError env (store namePtr)
  (r.1, r.2, store)

/-- Modelled from the spec and the header signature: the C entry point of
the missing-method Signaler, reading its class-name, method-name and
signature buffers from the caller's store. -/
def throwNoSuchMethodErrorEntry (env : HostEnv) (store : Store)
    (clsPtr mthPtr sigPtr : Nat) : Int × HostEnv × Store :=
  let r := throwNoSuchMethodError env (store clsPtr) (store mthPtr) (store sigPtr)
  (r.1, r.2, store)

/-- Raising never changes which classes the environment resolves; only
the pending-exception field can change. -/
theorem raiseAs_resolvable (env : HostEnv) (c : ExnCategory) (msg : String) :
    ((raiseAs env c msg).2).resolvable = env.resolvable := by
  rw [raiseAs]
  split
  · rfl
  · rfl

/-- C10: for every call to any of the three Signaler entry points, the
caller's string buffers are read-only — the store is unchanged when the
call returns — and of the HostEnvironmentHandle only the
pending-exception state is mutated (the resolvable-class component is
preserved). -/
theorem c10_frame (env : HostEnv) (store : Store) (p q r t u : Nat) :
    ((throwErrorEntry env store p).2.2 = store ∧
        ((throwErrorEntry env store p).2.1).resolvable = env.resolvable) ∧
      ((throwNoClassDefFoundErrorEntry env store q).2.2 = store ∧
        ((throwNoClassDefFoundErrorEntry env store q).2.1).resolvable =
          env.resolvable) ∧
      ((throwNoSuchMethodErrorEntry env store r t u).2.2 = store ∧
        ((throwNoSuchMethodErrorEntry env store r t u).2.1).resolvable =
          env.resolvable) := by
  refine ⟨⟨rfl, ?_⟩, ⟨rfl, ?_⟩, ⟨rfl, ?_⟩⟩
  · exact raiseAs_resolvable env ExnCategory.generic (store p)
  · exact raiseAs_resolvable env ExnCategory.missingClass (store q)
  · exact raiseAs_resolvable env ExnCategory.missingMethod
      (store r ++ "." ++ store t ++ store u)

end TornadoUtils
